import Mathlib

/-!
# Verification of the gh-deploy-wf deployment lifecycle

Shallow embedding of the deployment-tracking system: the Temporal workflows
(`workflows/deployment_workflow.go`), the GitHub activities
(`activities/github_activities.go` and its organization-routing variant), the
client factory (`github/client.go`), and the design-level lifecycle signal
loop given in `docs/Design.md` §4.1 (the state machine the production MVP
workflow stubs out).

Statuses, organizations and URLs are modelled as `String`; descriptions as
`List Char` (one entry per character); GitHub's numeric identifiers as `Int`.
Each fallible collaborator call (activity execution, remote API call) is
modelled by an explicit outcome parameter, so a workflow model is a pure
function of its input and of the outcome of every call it makes.
-/

namespace GhDeployWf

/-- From `docs/Design.md` (`mapHarnessStatusToGitHub`): maps a Harness status
onto the GitHub deployment-status vocabulary; unrecognized input maps to
`"pending"`.  The Go map literal is embedded as a key-by-key comparison. -/
def mapHarnessStatusToGitHub (harnessStatus : String) : String :=
  if harnessStatus = "queued" then "queued"
  else if harnessStatus = "running" then "in_progress"
  else if harnessStatus = "in_progress" then "in_progress"
  else if harnessStatus = "success" then "success"
  else if harnessStatus = "succeeded" then "success"
  else if harnessStatus = "failed" then "failure"
  else if harnessStatus = "failure" then "failure"
  else if harnessStatus = "error" then "error"
  else if harnessStatus = "aborted" then "failure"
  else if harnessStatus = "cancelled" then "failure"
  else if harnessStatus = "inactive" then "inactive"
  else "pending"

/-- From `docs/Design.md` (`isTerminalStatus`): membership in the terminal
status set. -/
def isTerminalStatus (status : String) : Bool :=
  status = "success" || status = "failure" || status = "error" || status = "inactive"

/-- From `activities/github_activities.go` (`truncateDescription`, identical in
all three activity-file variants): descriptions longer than `maxLen` are cut
to `maxLen - 3` characters and an ellipsis marker is appended. -/
def truncateDescription (desc : List Char) (maxLen : Nat) : List Char :=
  if desc.length ≤ maxLen then desc
  else desc.take (maxLen - 3) ++ ['.', '.', '.']

/-! ## The design-level lifecycle state machine (`docs/Design.md` §4.1)

`docs/Design.md` lines 511-682 give `GitHubDeploymentWorkflow` with the
signal/timer race loop.  A run: create the record, apply the initial mapped
transition, set `FinalStatus := input.Status`, then loop: select on the
status-update signal channel against a fresh `SignalTimeout` timer.  A
received signal applies a mapped transition (counting it and recording the
raw status on success); a timer firing applies a synthetic `"inactive"`
transition when the current status is not terminal.  The loop exits as soon
as `FinalStatus` is terminal.

The embedding passes the outcome of every `UpdateGitHubDeploymentStatus`
activity execution explicitly: each delivered signal carries a `Bool` saying
whether its transition application succeeded, and each timer firing carries a
`Bool` for the synthetic transition. -/

/-- From `docs/Design.md` (`DeploymentStatusUpdate`): a status-update signal. -/
structure DeploymentStatusUpdate where
  status : String
  logURL : String
  environmentURL : String
  description : List Char
  deriving DecidableEq, Repr

/-- Which code site issued a transition (trace bookkeeping; the source sites
are the initial status update, the signal handler, and the timeout handler). -/
inductive TransitionSource where
  | initial
  | signal
  | timeout
  deriving DecidableEq, Repr

/-- One successfully applied status transition, as transmitted to
`UpdateGitHubDeploymentStatus`: `state` is the GitHub-vocabulary state that
the remote record receives, `rawStatus` the inbound status it was mapped
from. -/
structure AppliedTransition where
  source : TransitionSource
  state : String
  rawStatus : String
  description : List Char
  deriving DecidableEq, Repr

/-- The per-run mutable state of the design workflow: the `result.FinalStatus`
and `result.StatusUpdates` fields, plus the trace of applied transitions. -/
structure RunState where
  finalStatus : String
  statusUpdates : Nat
  applied : List AppliedTransition
  deriving DecidableEq, Repr

/-- The transition transmitted by the signal handler for update `u`
(`docs/Design.md` lines 604-614): state `mapHarnessStatusToGitHub u.status`. -/
def signalTransition (u : DeploymentStatusUpdate) : AppliedTransition :=
  { source := .signal
    state := mapHarnessStatusToGitHub u.status
    rawStatus := u.status
    description := u.description }

/-- Effect of the signal handler on the run state (`docs/Design.md` lines
595-632): when the transition activity succeeds (`ok`), the update counter is
incremented and `FinalStatus` becomes the raw inbound status; a failed
application is logged and changes nothing. -/
def applySignal (s : RunState) (u : DeploymentStatusUpdate) (ok : Bool) : RunState :=
  if ok then
    { finalStatus := u.status
      statusUpdates := s.statusUpdates + 1
      applied := s.applied ++ [signalTransition u] }
  else s

/-- The signal phase of the loop: deliver the events in order; after each
select firing the loop breaks iff `FinalStatus` is terminal (`docs/Design.md`
lines 591-668).  Returns the final run state and the events that were never
processed because the loop had already exited. -/
def runSignalLoop :
    RunState → List (DeploymentStatusUpdate × Bool) →
      RunState × List (DeploymentStatusUpdate × Bool)
  | s, [] => (s, [])
  | s, (u, ok) :: rest =>
    let s' := applySignal s u ok
    if isTerminalStatus s'.finalStatus then (s', rest)
    else runSignalLoop s' rest

/-- The synthetic transition issued by the timeout handler (`docs/Design.md`
lines 643-651): state `"inactive"` with the fixed timed-out description. -/
def timeoutTransition : AppliedTransition :=
  { source := .timeout
    state := "inactive"
    rawStatus := "inactive"
    description := "Deployment timed out waiting for status update".toList }

/-- Effect of one timer firing (`docs/Design.md` lines 636-658): when the
current status is not terminal, the synthetic `"inactive"` transition is
attempted; on success (`ok`) it is counted and becomes the final status. -/
def applyTimeout (s : RunState) (ok : Bool) : RunState :=
  if isTerminalStatus s.finalStatus then s
  else if ok then
    { finalStatus := "inactive"
      statusUpdates := s.statusUpdates + 1
      applied := s.applied ++ [timeoutTransition] }
  else s

/-- The timeout phase: once the delivered events are exhausted, each further
loop iteration arms a fresh timer whose firing attempts the synthetic
transition; the loop exits as soon as `FinalStatus` is terminal.  `oks` lists
the outcomes of the successive synthetic-transition attempts; `none` means
the run is still suspended after all listed attempts. -/
def runTimeoutPhase : RunState → List Bool → Option RunState
  | s, [] => if isTerminalStatus s.finalStatus then some s else none
  | s, ok :: rest =>
    let s' := applyTimeout s ok
    if isTerminalStatus s'.finalStatus then some s'
    else runTimeoutPhase s' rest

/-- From `docs/Design.md` (`DeploymentWorkflowInput`). -/
structure DesignWorkflowInput where
  repoOwner : String
  repoName : String
  commitSHA : String
  branchName : String
  environment : String
  isTransient : Bool
  harnessPipelineID : String
  harnessExecutionID : String
  status : String
  logURL : String
  environmentURL : String
  description : List Char
  deriving DecidableEq, Repr

/-- From `docs/Design.md` (`DeploymentWorkflowResult`), timing fields
omitted. -/
structure DesignWorkflowResult where
  deploymentID : Int
  finalStatus : String
  statusUpdates : Nat
  deriving DecidableEq, Repr

/-- Outcome of a design-workflow run: creation failure aborts with an error;
a run whose loop never reaches a terminal status within the supplied outcome
lists is still suspended; otherwise the run completes with a result and the
trace of transitions it applied. -/
inductive DesignOutcome where
  | createFailed
  | waiting (s : RunState)
  | completed (r : DesignWorkflowResult) (applied : List AppliedTransition)
  deriving DecidableEq, Repr

/-- The initial status update transmitted before the loop (`docs/Design.md`
lines 568-578): state `mapHarnessStatusToGitHub input.status`. -/
def initialTransition (input : DesignWorkflowInput) : AppliedTransition :=
  { source := .initial
    state := mapHarnessStatusToGitHub input.status
    rawStatus := input.status
    description := input.description }

/-- Run state on entry to the signal loop (`docs/Design.md` lines 567-589):
the initial transition has been attempted with outcome `initialOk` and
`FinalStatus` initialized to the raw input status. -/
def initRunState (input : DesignWorkflowInput) (initialOk : Bool) : RunState :=
  { finalStatus := input.status
    statusUpdates := if initialOk then 1 else 0
    applied := if initialOk then [initialTransition input] else [] }

/-- From `docs/Design.md` (`GitHubDeploymentWorkflow`): the whole design-level
lifecycle run.  `createResult` is the outcome of the `CreateGitHubDeployment`
activity after its retry budget, `initialOk` that of the initial status
update, `events` the delivered update signals each with its application
outcome, `timeoutOks` the outcomes of successive synthetic-transition
attempts once events are exhausted. -/
def gitHubDeploymentWorkflowDesign (input : DesignWorkflowInput)
    (createResult : Option Int) (initialOk : Bool)
    (events : List (DeploymentStatusUpdate × Bool)) (timeoutOks : List Bool) :
    DesignOutcome :=
  match createResult with
  | none => .createFailed
  | some deploymentID =>
    let s0 := initRunState input initialOk
    let s1 := (runSignalLoop s0 events).1
    if isTerminalStatus s1.finalStatus then
      .completed ⟨deploymentID, s1.finalStatus, s1.statusUpdates⟩ s1.applied
    else
      match runTimeoutPhase s1 timeoutOks with
      | some s2 => .completed ⟨deploymentID, s2.finalStatus, s2.statusUpdates⟩ s2.applied
      | none => .waiting s1

/-- Transitions applied by a run (empty for an aborted or still-suspended
run). -/
def appliedTransitionsOf : DesignOutcome → List AppliedTransition
  | .createFailed => []
  | .waiting _ => []
  | .completed _ applied => applied

/-- The number of synthetic (timeout-issued) transitions in a trace. -/
def syntheticCount (ts : List AppliedTransition) : Nat :=
  (ts.filter fun t => t.source = TransitionSource.timeout).length

/-- Formalization of the claimed terminal-exclusivity property over a trace of
applied transition states: every applied transition whose transmitted state
is terminal is the last applied transition. -/
def noTransitionAfterTerminal (states : List String) : Prop :=
  ∀ i : Fin states.length, isTerminalStatus (states.get i) = true →
    (i : Nat) + 1 = states.length

instance (states : List String) : Decidable (noTransitionAfterTerminal states) := by
  unfold noTransitionAfterTerminal
  infer_instance

/-! ## The production MVP creation workflow (`workflows/deployment_workflow.go`)

The Go code shipped in the repository is the MVP variant: it creates the
deployment, applies the initial status (`"queued"`, or `"in_progress"` when a
log URL was supplied), sleeps, and immediately applies a final `"success"`
transition — no signal loop.  A failed initial update is logged and skipped;
a failed final update sets `FinalStatus` to `"error"`; only a creation
failure aborts the run with an error. -/

/-- From `workflows/deployment_workflow.go` (`DeploymentWorkflowInput`). -/
structure DeploymentWorkflowInput where
  githubOwner : String
  githubRepo : String
  commitSHA : String
  environment : String
  description : List Char
  isTransient : Bool
  harnessPipelineID : String
  harnessExecutionID : String
  logURL : String
  environmentURL : String
  deriving DecidableEq, Repr

/-- From `activities` (`CreateDeploymentResult`): what the creation activity
returns on success. -/
structure CreateDeploymentResult where
  deploymentID : Int
  url : String
  environment : String
  deriving DecidableEq, Repr

/-- From `workflows/deployment_workflow.go` (`DeploymentWorkflowResult`),
timing fields omitted. -/
structure DeploymentWorkflowResult where
  deploymentID : Int
  finalStatus : String
  environment : String
  environmentURL : String
  statusUpdates : Nat
  deriving DecidableEq, Repr

/-- From `workflows/deployment_workflow.go` (`getInitialStatusDescription`). -/
def getInitialStatusDescription (status environment : String) : List Char :=
  if status = "queued" then
    ("Deployment to " ++ environment ++ " environment queued").toList
  else if status = "in_progress" then
    ("Deploying to " ++ environment ++ " environment").toList
  else
    ("Deployment to " ++ environment ++ " environment started").toList

/-- The initial status chosen by the MVP workflow (`deployment_workflow.go`
lines 121-124): `"in_progress"` when a log URL was supplied at creation,
otherwise `"queued"`. -/
def mvpInitialStatus (input : DeploymentWorkflowInput) : String :=
  if input.logURL = "" then "queued" else "in_progress"

/-- From `workflows/deployment_workflow.go` (`GitHubDeploymentWorkflow`, the
MVP variant actually shipped): `createResult` is the outcome of the
`CreateGitHubDeployment` activity after retries, `initialOk` / `finalOk` the
outcomes of the two `UpdateGitHubDeploymentStatus` activity executions.
Returns `none` exactly when the run aborts with an error. -/
def gitHubDeploymentWorkflow (input : DeploymentWorkflowInput)
    (createResult : Option CreateDeploymentResult)
    (initialOk : Bool) (finalOk : Bool) : Option DeploymentWorkflowResult :=
  match createResult with
  | none => none
  | some dep =>
    let afterInitial : Nat := if initialOk then 1 else 0
    if finalOk then
      some { deploymentID := dep.deploymentID
             finalStatus := "success"
             environment := input.environment
             environmentURL := input.environmentURL
             statusUpdates := afterInitial + 1 }
    else
      some { deploymentID := dep.deploymentID
             finalStatus := "error"
             environment := input.environment
             environmentURL := ""
             statusUpdates := afterInitial }

/-! ## The activities (`activities/github_activities.go` and the
organization-routing variant of the same file) -/

/-- From `activities` (`UpdateDeploymentStatusInput`). -/
structure UpdateDeploymentStatusInput where
  githubOwner : String
  githubRepo : String
  deploymentID : Int
  state : String
  description : List Char
  logURL : String
  environmentURL : String
  deriving DecidableEq, Repr

/-- The GitHub `DeploymentStatusRequest` transmitted to the remote API, with
option fields `none` when the Go code leaves the pointer unset. -/
structure DeploymentStatusRequest where
  state : String
  description : List Char
  autoInactive : Bool
  logURL : Option String
  environmentURL : Option String
  deriving DecidableEq, Repr

/-- From `UpdateGitHubDeploymentStatus` (identical in both activity-file
variants, lines 125-138 / 196-209): the status request sent to
`CreateDeploymentStatus` — the state verbatim, the description truncated to
140 characters, auto-inactive set, URLs only when non-empty. -/
def buildStatusRequest (input : UpdateDeploymentStatusInput) : DeploymentStatusRequest :=
  { state := input.state
    description := truncateDescription input.description 140
    autoInactive := true
    logURL := if input.logURL = "" then none else some input.logURL
    environmentURL := if input.environmentURL = "" then none else some input.environmentURL }

/-- A deployment record as returned by the GitHub `ListDeployments` call:
its identifier and creation timestamp (modelled as an integer instant). -/
structure GHDeployment where
  id : Int
  createdAt : Int
  deriving DecidableEq, Repr

/-- The distinct error exits of `FindGitHubDeployment` (organization-routing
activity variant, lines 244-316). -/
inductive FindError where
  | clientFailed
  | listFailed
  | noDeploymentFound
  deriving DecidableEq, Repr

/-- From the organization-routing activity variant (`FindGitHubDeployment`):
`clientOk` is the outcome of obtaining the org client, `listResult` the
outcome of `ListDeployments` (requested with page size 10, most-recent-first
order).  An empty candidate list is the `noDeploymentFound` error; otherwise
the identifier of the first (most recent) candidate is returned. -/
def findGitHubDeployment (clientOk : Bool)
    (listResult : Option (List GHDeployment)) : Except FindError Int :=
  if clientOk then
    match listResult with
    | none => .error .listFailed
    | some deployments =>
      match deployments with
      | [] => .error .noDeploymentFound
      | d :: _ => .ok d.id
  else .error .clientFailed

/-! ## The update workflow (`workflows/deployment_workflow.go`,
`UpdateDeploymentWorkflow`) -/

/-- From `workflows/deployment_workflow.go` (`DeploymentUpdateInput`). -/
structure DeploymentUpdateInput where
  githubOwner : String
  githubRepo : String
  commitSHA : String
  environment : String
  state : String
  description : List Char
  logURL : String
  environmentURL : String
  deriving DecidableEq, Repr

/-- From `workflows/deployment_workflow.go` (`DeploymentUpdateResult`),
timestamp omitted. -/
structure DeploymentUpdateResult where
  deploymentID : Int
  updatedStatus : String
  environment : String
  logURL : String
  environmentURL : String
  deriving DecidableEq, Repr

/-- The error exits of `UpdateDeploymentWorkflow`: the find activity failed
(wrapping its error), or the status-update activity failed after retries. -/
inductive UpdateWorkflowError where
  | findFailed (e : FindError)
  | updateFailed
  deriving DecidableEq, Repr

/-- The `UpdateDeploymentStatusInput` that `UpdateDeploymentWorkflow`
transmits for the resolved deployment (`deployment_workflow.go` lines
543-551): the caller-supplied state is passed through verbatim. -/
def updateRequestOf (input : DeploymentUpdateInput) (deploymentID : Int) :
    UpdateDeploymentStatusInput :=
  { githubOwner := input.githubOwner
    githubRepo := input.githubRepo
    deploymentID := deploymentID
    state := input.state
    description := input.description
    logURL := input.logURL
    environmentURL := input.environmentURL }

/-- From `workflows/deployment_workflow.go` (`UpdateDeploymentWorkflow`):
resolve the identity via `FindGitHubDeployment`, then apply the supplied
transition; `updateOk` is the outcome of the status-update activity after
retries. -/
def updateDeploymentWorkflow (input : DeploymentUpdateInput) (clientOk : Bool)
    (listResult : Option (List GHDeployment)) (updateOk : Bool) :
    Except UpdateWorkflowError DeploymentUpdateResult :=
  match findGitHubDeployment clientOk listResult with
  | .error e => .error (.findFailed e)
  | .ok deploymentID =>
    if updateOk then
      .ok { deploymentID := deploymentID
            updatedStatus := input.state
            environment := input.environment
            logURL := input.logURL
            environmentURL := input.environmentURL }
    else .error .updateFailed

/-- The status request transmitted to the remote API by the update workflow,
when lookup resolves (built from the verbatim pass-through of
`updateRequestOf` by the status activity). -/
def transmittedUpdate (input : DeploymentUpdateInput) (clientOk : Bool)
    (listResult : Option (List GHDeployment)) : Option DeploymentStatusRequest :=
  match findGitHubDeployment clientOk listResult with
  | .error _ => none
  | .ok deploymentID => some (buildStatusRequest (updateRequestOf input deploymentID))

/-- A candidate list in most-recent-first order: creation instants are
non-increasing along the list. -/
def mostRecentFirst (l : List GHDeployment) : Prop :=
  l.Chain' fun a b => b.createdAt ≤ a.createdAt

/-! ## The client factory (`github/client.go`)

A `ClientFactory` holds the GitHub configuration and the per-organization
installation-identifier cache (a map, embedded as an association list whose
`List.lookup` mirrors the Go map read).  A created client is modelled by the
installation identifier it authenticates as.  Each factory operation returns
its result, the updated factory, and whether it listed installations. -/

/-- From `config` (`GitHubConfig`): the fields the factory consults. -/
structure GitHubConfig where
  enterpriseURL : String
  appID : Int
  deriving DecidableEq, Repr

/-- One GitHub App installation as returned by `ListInstallations`. -/
structure Installation where
  account : String
  id : Int
  deriving DecidableEq, Repr

/-- From `github/client.go` (`ClientFactory`): configuration plus the
installation-identifier cache keyed by organization. -/
structure ClientFactory where
  config : GitHubConfig
  installationCache : List (String × Int)
  deriving DecidableEq, Repr

/-- From `github/client.go` (`NewClientFactory`): a factory with an empty
cache. -/
def newClientFactory (cfg : GitHubConfig) : ClientFactory :=
  { config := cfg, installationCache := [] }

/-- The distinct error exits of the factory operations. -/
inductive ClientError where
  | enterpriseURLNotConfigured
  | appTransportFailed
  | listFailed
  | noInstallationFound
  | deprecatedCreateClient
  deriving DecidableEq, Repr

/-- The shared miss-path of both per-organization constructors
(`github/client.go` lines 59-105 and 151-191): build the app transport, list
the installations, take the first whose account is the organization and cache
its identifier, then fail if the found identifier is zero (the Go sentinel
for "not found"). -/
def resolveInstallation (f : ClientFactory) (org : String) (transportOk : Bool)
    (listResult : Option (List Installation)) :
    Except ClientError Int × ClientFactory × Bool :=
  if transportOk then
    match listResult with
    | none => (.error .listFailed, f, true)
    | some installations =>
      match installations.find? (fun inst => inst.account = org) with
      | none => (.error .noInstallationFound, f, true)
      | some inst =>
        let f' := { f with installationCache := (org, inst.id) :: f.installationCache }
        if inst.id = 0 then (.error .noInstallationFound, f', true)
        else (.ok inst.id, f', true)
  else (.error .appTransportFailed, f, false)

/-- From `github/client.go` (`CreateEnterpriseClientForOrg`): fails fast when
no Enterprise URL is configured; otherwise serves a cached installation
identifier without listing, or resolves and caches it. -/
def createEnterpriseClientForOrg (f : ClientFactory) (org : String)
    (transportOk : Bool) (listResult : Option (List Installation)) :
    Except ClientError Int × ClientFactory × Bool :=
  if f.config.enterpriseURL = "" then (.error .enterpriseURLNotConfigured, f, false)
  else
    match f.installationCache.lookup org with
    | some installationID => (.ok installationID, f, false)
    | none => resolveInstallation f org transportOk listResult

/-- From `github/client.go` (`CreateGitHubComClientForOrg`): serves a cached
installation identifier without listing, or resolves and caches it. -/
def createGitHubComClientForOrg (f : ClientFactory) (org : String)
    (transportOk : Bool) (listResult : Option (List Installation)) :
    Except ClientError Int × ClientFactory × Bool :=
  match f.installationCache.lookup org with
  | some installationID => (.ok installationID, f, false)
  | none => resolveInstallation f org transportOk listResult

/-- From `github/client.go` (`CreateClientForOrg`): routes to the Enterprise
constructor when an Enterprise URL is configured, else to the GitHub.com
fallback. -/
def createClientForOrg (f : ClientFactory) (org : String) (transportOk : Bool)
    (listResult : Option (List Installation)) :
    Except ClientError Int × ClientFactory × Bool :=
  if f.config.enterpriseURL ≠ "" then
    createEnterpriseClientForOrg f org transportOk listResult
  else createGitHubComClientForOrg f org transportOk listResult

/-- From `github/client.go` (`CreateClient`): the deprecated constructor,
which unconditionally returns an error and touches nothing. -/
def createClient (f : ClientFactory) : Except ClientError Int × ClientFactory × Bool :=
  (.error .deprecatedCreateClient, f, false)

/-! ## The deprecated-client activities (`activities/github_activities.go`)

The activity file at `activities/github_activities.go` still obtains its
client through the deprecated `CreateClient`.  Each model returns the
activity result together with whether the remote GitHub call was reached. -/

/-- From `activities` (`CreateDeploymentInput`). -/
structure CreateDeploymentInput where
  githubOwner : String
  githubRepo : String
  commitSHA : String
  environment : String
  description : List Char
  isTransient : Bool
  harnessExecutionID : String
  harnessPipelineID : String
  deriving DecidableEq, Repr

/-- The error exits of the activity bodies: client construction failed
(wrapping the factory error), or the remote call failed. -/
inductive ActivityError where
  | clientFailed (e : ClientError)
  | remoteFailed
  deriving DecidableEq, Repr

/-- From `activities/github_activities.go` (`CreateGitHubDeployment`):
obtains its client via the deprecated `CreateClient`, then would call the
remote create (`remoteResult` being that call's outcome). -/
def createGitHubDeploymentLegacy (f : ClientFactory)
    (_input : CreateDeploymentInput)
    (remoteResult : Option CreateDeploymentResult) :
    Except ActivityError CreateDeploymentResult × Bool :=
  match (createClient f).1 with
  | .error e => (.error (.clientFailed e), false)
  | .ok _ =>
    match remoteResult with
    | none => (.error .remoteFailed, true)
    | some r => (.ok r, true)

/-- From `activities/github_activities.go` (`UpdateGitHubDeploymentStatus`):
obtains its client via the deprecated `CreateClient`, then would transmit the
built status request (`remoteOk` being the remote call's outcome). -/
def updateGitHubDeploymentStatusLegacy (f : ClientFactory)
    (input : UpdateDeploymentStatusInput) (remoteOk : Bool) :
    Except ActivityError DeploymentStatusRequest × Bool :=
  match (createClient f).1 with
  | .error e => (.error (.clientFailed e), false)
  | .ok _ =>
    if remoteOk then (.ok (buildStatusRequest input), true)
    else (.error .remoteFailed, true)

/-- The second MVP workflow variant in `workflows/deployment_workflow.go`
(the structured-logging revision): identical control flow plus two defensive
checks before returning — a zero deployment identifier aborts with an error,
and an empty final status is replaced by `"unknown"`. -/
def gitHubDeploymentWorkflowV2 (input : DeploymentWorkflowInput)
    (createResult : Option CreateDeploymentResult)
    (initialOk : Bool) (finalOk : Bool) : Option DeploymentWorkflowResult :=
  match createResult with
  | none => none
  | some dep =>
    let afterInitial : Nat := if initialOk then 1 else 0
    let r : DeploymentWorkflowResult :=
      if finalOk then
        { deploymentID := dep.deploymentID
          finalStatus := "success"
          environment := input.environment
          environmentURL := input.environmentURL
          statusUpdates := afterInitial + 1 }
      else
        { deploymentID := dep.deploymentID
          finalStatus := "error"
          environment := input.environment
          environmentURL := ""
          statusUpdates := afterInitial }
    if r.deploymentID = 0 then none
    else some (if r.finalStatus = "" then { r with finalStatus := "unknown" } else r)

/-! ## Concrete fixtures used by counterexamples and witnesses -/

/-- A status-update signal with the given status and empty metadata. -/
def bareUpdate (status : String) : DeploymentStatusUpdate :=
  { status := status, logURL := "", environmentURL := "", description := [] }

/-- A design-workflow input with the given initial status and placeholder
identity fields. -/
def designInputWith (status : String) : DesignWorkflowInput :=
  { repoOwner := "acme"
    repoName := "shop"
    commitSHA := "3be5513"
    branchName := "main"
    environment := "production"
    isTransient := false
    harnessPipelineID := "pipe-1"
    harnessExecutionID := "exec-1"
    status := status
    logURL := ""
    environmentURL := ""
    description := [] }

/-- An update-workflow input with the given target state and placeholder
identity fields. -/
def updateInputWith (state : String) : DeploymentUpdateInput :=
  { githubOwner := "acme"
    githubRepo := "shop"
    commitSHA := "3be5513"
    environment := "pr-preview"
    state := state
    description := []
    logURL := ""
    environmentURL := "" }

/-- A status-update-activity input with the given description and placeholder
identity fields. -/
def statusInputWith (desc : List Char) : UpdateDeploymentStatusInput :=
  { githubOwner := "acme"
    githubRepo := "shop"
    deploymentID := 7
    state := "success"
    description := desc
    logURL := ""
    environmentURL := "" }

/-! ## Helper lemmas -/

/-- Once the run state is non-terminal, the timeout phase terminates on the
first successful synthetic-transition attempt, applying exactly that one
`"inactive"` transition; failed attempts change nothing and re-arm the
timer. -/
theorem runTimeoutPhase_inactive (s : RunState) (oks : List Bool)
    (hs : isTerminalStatus s.finalStatus = false) (h : true ∈ oks) :
    runTimeoutPhase s oks =
      some { finalStatus := "inactive"
             statusUpdates := s.statusUpdates + 1
             applied := s.applied ++ [timeoutTransition] } := by
  induction oks with
  | nil => cases h
  | cons ok rest ih =>
    cases ok with
    | true =>
      simp only [runTimeoutPhase, applyTimeout, hs]
      simp [isTerminalStatus]
    | false =>
      have hrest : true ∈ rest := by
        rcases List.mem_cons.mp h with h' | h'
        · cases h'
        · exact h'
      simp only [runTimeoutPhase, applyTimeout, hs]
      simpa [hs] using ih hrest

/-- A design run with no delivered events and a non-terminal initial status
completes through the timeout path as soon as a synthetic-transition attempt
succeeds. -/
theorem designRun_timeout (input : DesignWorkflowInput) (id : Int)
    (initialOk : Bool) (oks : List Bool)
    (hs : isTerminalStatus input.status = false) (h : true ∈ oks) :
    gitHubDeploymentWorkflowDesign input (some id) initialOk [] oks =
      .completed ⟨id, "inactive", (initRunState input initialOk).statusUpdates + 1⟩
        ((initRunState input initialOk).applied ++ [timeoutTransition]) := by
  have hfs : (initRunState input initialOk).finalStatus = input.status := rfl
  simp only [gitHubDeploymentWorkflowDesign, runSignalLoop, hfs, hs,
    Bool.false_eq_true, if_false]
  rw [runTimeoutPhase_inactive _ _ (by rw [hfs]; exact hs) h]

/-! ## C5 — description truncation -/

/-- Claim C5 (confirmed): a description of at most 140 characters is
transmitted unchanged by `UpdateGitHubDeploymentStatus`; a longer one is
transmitted as exactly 140 characters ending in the ellipsis marker
`"..."`. -/
theorem description_truncation (input : UpdateDeploymentStatusInput) (desc : List Char) :
    (desc.length ≤ 140 → truncateDescription desc 140 = desc) ∧
    (140 < desc.length →
      (truncateDescription desc 140).length = 140 ∧
      ['.', '.', '.'] <:+ truncateDescription desc 140) ∧
    (buildStatusRequest input).description = truncateDescription input.description 140 := by
  refine ⟨fun h => by simp [truncateDescription, h], fun h => ?_, rfl⟩
  have hnot : ¬ desc.length ≤ 140 := not_le.mpr h
  constructor
  · simp only [truncateDescription, if_neg hnot, List.length_append, List.length_take]
    have : min 137 desc.length = 137 := min_eq_left (by omega)
    simp [this]
  · simp only [truncateDescription, if_neg hnot]
    exact List.suffix_append _ _

/-- Witness for C5 at a 10-character and a 200-character description. -/
theorem description_truncation_witness :
    truncateDescription (List.replicate 10 'b') 140 = List.replicate 10 'b' ∧
    (truncateDescription (List.replicate 200 'a') 140).length = 140 ∧
    ['.', '.', '.'] <:+ truncateDescription (List.replicate 200 'a') 140 :=
  ⟨(description_truncation (statusInputWith []) (List.replicate 10 'b')).1
      (by rw [List.length_replicate]; omega),
   ((description_truncation (statusInputWith []) (List.replicate 200 'a')).2.1
      (by rw [List.length_replicate]; omega)).1,
   ((description_truncation (statusInputWith []) (List.replicate 200 'a')).2.1
      (by rw [List.length_replicate]; omega)).2⟩

/-! ## C4 — update-workflow failure conditions -/

/-- Claim C4 (confirmed): `UpdateDeploymentWorkflow` fails when the lookup
finds zero candidates (surfaced as the no-deployment-found error), when the
lookup call fails (client construction or listing), or when the transition
call fails after retries; when everything succeeds it returns a summary
carrying the resolved identifier and the applied state. -/
theorem update_workflow_failure_conditions (input : DeploymentUpdateInput)
    (updateOk : Bool) (listResult : Option (List GHDeployment))
    (d : GHDeployment) (ds : List GHDeployment) :
    updateDeploymentWorkflow input true (some []) updateOk
      = .error (.findFailed .noDeploymentFound) ∧
    updateDeploymentWorkflow input false listResult updateOk
      = .error (.findFailed .clientFailed) ∧
    updateDeploymentWorkflow input true none updateOk
      = .error (.findFailed .listFailed) ∧
    updateDeploymentWorkflow input true (some (d :: ds)) false
      = .error .updateFailed ∧
    updateDeploymentWorkflow input true (some (d :: ds)) true
      = .ok { deploymentID := d.id
              updatedStatus := input.state
              environment := input.environment
              logURL := input.logURL
              environmentURL := input.environmentURL } := by
  refine ⟨rfl, ?_, rfl, rfl, rfl⟩
  simp [updateDeploymentWorkflow, findGitHubDeployment]

/-! ## C7 — lookup picks the most recent candidate -/

/-- Claim C7 (confirmed): `FindGitHubDeployment` returns the identifier of
the first candidate of any non-empty list, so with two records sharing one
identity created at instants T1 < T2 and listed most-recent-first, the update
workflow resolves to the T2 record and applies the transition to it. -/
theorem lookup_picks_most_recent :
    (∀ (d : GHDeployment) (ds : List GHDeployment),
      findGitHubDeployment true (some (d :: ds)) = .ok d.id) ∧
    (∀ (input : DeploymentUpdateInput) (id1 id2 t1 t2 : Int), t1 < t2 →
      mostRecentFirst [⟨id2, t2⟩, ⟨id1, t1⟩] ∧
      updateDeploymentWorkflow input true (some [⟨id2, t2⟩, ⟨id1, t1⟩]) true
        = .ok { deploymentID := id2
                updatedStatus := input.state
                environment := input.environment
                logURL := input.logURL
                environmentURL := input.environmentURL } ∧
      transmittedUpdate input true (some [⟨id2, t2⟩, ⟨id1, t1⟩])
        = some (buildStatusRequest (updateRequestOf input id2))) := by
  refine ⟨fun d ds => rfl, fun input id1 id2 t1 t2 h => ⟨?_, rfl, rfl⟩⟩
  simp [mostRecentFirst, le_of_lt h]

/-- Witness for C7: records created at instants 10 < 20, listed
most-recent-first, resolve to the newer identifier 2. -/
theorem lookup_picks_most_recent_witness :
    updateDeploymentWorkflow (updateInputWith "success") true
        (some [⟨2, 20⟩, ⟨1, 10⟩]) true
      = .ok { deploymentID := 2
              updatedStatus := "success"
              environment := "pr-preview"
              logURL := ""
              environmentURL := "" } :=
  (lookup_picks_most_recent.2 (updateInputWith "success") 1 2 10 20 (by decide)).2.1

/-! ## C10 — the deprecated client path always fails -/

/-- Claim C10 (confirmed): `CreateClient` rejects every call as deprecated,
so the activity bodies in `activities/github_activities.go` error out on
every input without ever reaching the remote create or transition call. -/
theorem deprecated_client_always_fails (f : ClientFactory) :
    createClient f = (.error .deprecatedCreateClient, f, false) ∧
    (∀ (input : CreateDeploymentInput) (remoteResult : Option CreateDeploymentResult),
      createGitHubDeploymentLegacy f input remoteResult
        = (.error (.clientFailed .deprecatedCreateClient), false)) ∧
    (∀ (input : UpdateDeploymentStatusInput) (remoteOk : Bool),
      updateGitHubDeploymentStatusLegacy f input remoteOk
        = (.error (.clientFailed .deprecatedCreateClient), false)) :=
  ⟨rfl, fun _ _ => rfl, fun _ _ => rfl⟩

/-! ## C3 — creation failure is fatal, transition failures are not -/

/-- Claim C3 (confirmed): the MVP `GitHubDeploymentWorkflow` aborts with an
error exactly when the create-deployment activity fails after its retry
budget; once the record exists, both status-transition applications may fail
without aborting, and a run summary is still returned. -/
theorem creation_failure_fatality (input : DeploymentWorkflowInput)
    (dep : CreateDeploymentResult) (initialOk finalOk : Bool) :
    gitHubDeploymentWorkflow input none initialOk finalOk = none ∧
    (gitHubDeploymentWorkflow input (some dep) initialOk finalOk).isSome = true ∧
    (∀ createResult, gitHubDeploymentWorkflow input createResult initialOk finalOk = none
      ↔ createResult = none) := by
  refine ⟨rfl, ?_, fun createResult => ?_⟩
  · cases finalOk <;> rfl
  · cases createResult with
    | none => exact iff_of_true rfl rfl
    | some dep' => cases finalOk <;> simp [gitHubDeploymentWorkflow]

/-! ## C1 — terminal exclusivity of the lifecycle loop -/

/-- Counterexample to claim C1 as stated: a run started with initial status
`"queued"` and fed the events `[succeeded, running]` (both applications
succeeding, then a timeout) transmits the transition states
`[queued, success, in_progress, inactive]` — the applied `"success"`
transition is terminal yet further transitions follow it, because the loop
checks terminality on the raw inbound status `"succeeded"`, not on the mapped
state it transmitted. -/
theorem terminal_exclusivity_cex :
    ((appliedTransitionsOf (gitHubDeploymentWorkflowDesign (designInputWith "queued")
        (some 1) true [(bareUpdate "succeeded", true), (bareUpdate "running", true)]
        [true])).map fun t => t.state)
      = ["queued", "success", "in_progress", "inactive"] ∧
    ¬ noTransitionAfterTerminal
        ((appliedTransitionsOf (gitHubDeploymentWorkflowDesign (designInputWith "queued")
          (some 1) true [(bareUpdate "succeeded", true), (bareUpdate "running", true)]
          [true])).map fun t => t.state) := by
  constructor
  · decide
  · decide

/-- Claim C1 as amended (proved): terminal exclusivity holds with terminality
judged on the raw inbound event status rather than on the transmitted mapped
state — once the loop applies an update whose raw status is in
{success, failure, error, inactive}, it applies exactly that one further
transition, leaves every remaining event unprocessed, and the run completes
with the loop state; fed `[in_progress, success, failure]`, exactly the two
transitions `in_progress` and `success` are applied and the `failure` event
is never processed. -/
theorem terminal_exclusivity :
    (∀ (s : RunState) (u : DeploymentStatusUpdate)
      (rest : List (DeploymentStatusUpdate × Bool)),
      isTerminalStatus u.status = true →
      runSignalLoop s ((u, true) :: rest) = (applySignal s u true, rest) ∧
      (applySignal s u true).applied = s.applied ++ [signalTransition u]) ∧
    (∀ (input : DesignWorkflowInput) (id : Int) (initialOk : Bool)
      (events : List (DeploymentStatusUpdate × Bool)) (timeoutOks : List Bool),
      isTerminalStatus ((runSignalLoop (initRunState input initialOk) events).1).finalStatus
        = true →
      gitHubDeploymentWorkflowDesign input (some id) initialOk events timeoutOks
        = .completed
            ⟨id, ((runSignalLoop (initRunState input initialOk) events).1).finalStatus,
             ((runSignalLoop (initRunState input initialOk) events).1).statusUpdates⟩
            ((runSignalLoop (initRunState input initialOk) events).1).applied) ∧
    (((runSignalLoop ⟨"queued", 0, []⟩
        [(bareUpdate "in_progress", true), (bareUpdate "success", true),
         (bareUpdate "failure", true)]).1.applied.map fun t => t.state)
      = ["in_progress", "success"] ∧
     (runSignalLoop ⟨"queued", 0, []⟩
        [(bareUpdate "in_progress", true), (bareUpdate "success", true),
         (bareUpdate "failure", true)]).2
      = [(bareUpdate "failure", true)]) := by
  refine ⟨fun s u rest h => ⟨?_, rfl⟩, fun input id initialOk events timeoutOks h => ?_,
    by decide, by decide⟩
  · simp [runSignalLoop, applySignal, h]
  · simp [gitHubDeploymentWorkflowDesign, h]

/-- Witness for C1: applying a terminal `"success"` event stops the loop
with the remaining `failure` event unconsumed. -/
theorem terminal_exclusivity_witness :
    runSignalLoop ⟨"queued", 1, []⟩
        [(bareUpdate "success", true), (bareUpdate "failure", true)]
      = (applySignal ⟨"queued", 1, []⟩ (bareUpdate "success") true,
         [(bareUpdate "failure", true)]) :=
  (terminal_exclusivity.1 ⟨"queued", 1, []⟩ (bareUpdate "success")
    [(bareUpdate "failure", true)] (by decide)).1

/-! ## C2 — timeout fallback -/

/-- Counterexample to claim C2 as stated: a run started with the already
terminal initial status `"success"` that receives no update event before the
deadline terminates with final state `"success"` and zero synthetic
transitions — not with one synthetic `"inactive"` transition. -/
theorem timeout_fallback_cex :
    gitHubDeploymentWorkflowDesign (designInputWith "success") (some 1) true [] [true]
      = .completed ⟨1, "success", 1⟩ [initialTransition (designInputWith "success")] ∧
    syntheticCount [initialTransition (designInputWith "success")] = 0 ∧
    ("success" : String) ≠ "inactive" := by
  refine ⟨by decide, by decide, by decide⟩

/-- Claim C2 as amended (proved): a run whose status is non-terminal when the
events run out applies — as soon as a synthetic-transition attempt succeeds —
exactly one synthetic `"inactive"` transition carrying the fixed timed-out
description, and terminates with final state `"inactive"`; a run whose
initial status is already terminal terminates without any synthetic
transition and keeps that status. -/
theorem timeout_fallback :
    (∀ (input : DesignWorkflowInput) (id : Int) (initialOk : Bool) (oks : List Bool),
      isTerminalStatus input.status = false → true ∈ oks →
      gitHubDeploymentWorkflowDesign input (some id) initialOk [] oks
        = .completed ⟨id, "inactive", (initRunState input initialOk).statusUpdates + 1⟩
            ((initRunState input initialOk).applied ++ [timeoutTransition]) ∧
      syntheticCount ((initRunState input initialOk).applied ++ [timeoutTransition]) = 1 ∧
      timeoutTransition.description
        = "Deployment timed out waiting for status update".toList) ∧
    (∀ (input : DesignWorkflowInput) (id : Int) (initialOk : Bool) (oks : List Bool),
      isTerminalStatus input.status = true →
      gitHubDeploymentWorkflowDesign input (some id) initialOk [] oks
        = .completed ⟨id, input.status, (initRunState input initialOk).statusUpdates⟩
            (initRunState input initialOk).applied) := by
  constructor
  · intro input id initialOk oks hs h
    refine ⟨designRun_timeout input id initialOk oks hs h, ?_, rfl⟩
    cases initialOk <;>
      simp [syntheticCount, initRunState, initialTransition, timeoutTransition]
  · intro input id initialOk oks hs
    have hfs : (initRunState input initialOk).finalStatus = input.status := rfl
    simp [gitHubDeploymentWorkflowDesign, runSignalLoop, hfs, hs]

/-- Witness for C2: a run with initial status `"queued"`, no events, and a
successful synthetic attempt ends inactive with one synthetic transition. -/
theorem timeout_fallback_witness :
    gitHubDeploymentWorkflowDesign (designInputWith "queued") (some 1) true [] [true]
      = .completed ⟨1, "inactive",
          (initRunState (designInputWith "queued") true).statusUpdates + 1⟩
          ((initRunState (designInputWith "queued") true).applied ++ [timeoutTransition]) ∧
    syntheticCount ((initRunState (designInputWith "queued") true).applied
        ++ [timeoutTransition]) = 1 :=
  ⟨(timeout_fallback.1 (designInputWith "queued") 1 true [true] (by decide)
      (List.mem_singleton.mpr rfl)).1,
   (timeout_fallback.1 (designInputWith "queued") 1 true [true] (by decide)
      (List.mem_singleton.mpr rfl)).2.1⟩

/-! ## C6 — status-vocabulary mapping -/

/-- Counterexample to claim C6 as stated: the update path
(`UpdateDeploymentWorkflow`) does not map the inbound state — fed the state
`"running"`, it transmits `"running"` verbatim, not the table image
`"in_progress"`. -/
theorem status_mapping_cex :
    transmittedUpdate (updateInputWith "running") true (some [⟨7, 5⟩])
      = some (buildStatusRequest (updateRequestOf (updateInputWith "running") 7)) ∧
    (buildStatusRequest (updateRequestOf (updateInputWith "running") 7)).state
      = "running" ∧
    mapHarnessStatusToGitHub "running" = "in_progress" ∧
    ("running" : String) ≠ "in_progress" := by
  refine ⟨rfl, rfl, by decide, by decide⟩

/-- Claim C6 as amended (proved): the fixed lookup table is the design-level
`mapHarnessStatusToGitHub` — `"running"`/`"in_progress"` map to
`"in_progress"`, `"succeeded"` to `"success"`, `"aborted"`/`"cancelled"` to
`"failure"`, and every input outside the table to `"pending"` — and it is
applied to inbound event statuses by the lifecycle signal loop; the
standalone update workflow, by contrast, transmits the caller-supplied state
unchanged. -/
theorem status_mapping :
    (mapHarnessStatusToGitHub "running" = "in_progress" ∧
     mapHarnessStatusToGitHub "in_progress" = "in_progress" ∧
     mapHarnessStatusToGitHub "succeeded" = "success" ∧
     mapHarnessStatusToGitHub "aborted" = "failure" ∧
     mapHarnessStatusToGitHub "cancelled" = "failure") ∧
    (∀ s : String, s ≠ "queued" → s ≠ "running" → s ≠ "in_progress" →
      s ≠ "success" → s ≠ "succeeded" → s ≠ "failed" → s ≠ "failure" →
      s ≠ "error" → s ≠ "aborted" → s ≠ "cancelled" → s ≠ "inactive" →
      mapHarnessStatusToGitHub s = "pending") ∧
    (∀ u : DeploymentStatusUpdate,
      (signalTransition u).state = mapHarnessStatusToGitHub u.status) ∧
    (∀ (input : DeploymentUpdateInput) (id : Int),
      (updateRequestOf input id).state = input.state) := by
  refine ⟨by decide, ?_, fun u => rfl, fun input id => rfl⟩
  intro s h1 h2 h3 h4 h5 h6 h7 h8 h9 h10 h11
  simp [mapHarnessStatusToGitHub, h1, h2, h3, h4, h5, h6, h7, h8, h9, h10, h11]

/-- Witness for C6: the unrecognized status `"Paused"` maps to `"pending"`. -/
theorem status_mapping_witness :
    mapHarnessStatusToGitHub "Paused" = "pending" :=
  status_mapping.2.1 "Paused" (by decide) (by decide) (by decide) (by decide)
    (by decide) (by decide) (by decide) (by decide) (by decide) (by decide) (by decide)

/-! ## C8 — the run summary distinguishes outcomes -/

/-- Claim C8 (confirmed): a creation-orchestrator run that partially fails
still returns a summary — in the MVP workflow with `"error"` as its final
state against `"success"` for a fully successful run (and, under the
defensive identifier check of the second variant, for every nonzero
deployment identifier) — and a design-level run that times out returns a
summary with final state `"inactive"`; the three markers are pairwise
distinct, so a caller can tell the outcomes apart from the summary alone. -/
theorem run_summary_distinguishes_outcomes :
    (∀ (input : DeploymentWorkflowInput) (dep : CreateDeploymentResult)
      (initialOk : Bool),
      gitHubDeploymentWorkflow input (some dep) initialOk true
        = some { deploymentID := dep.deploymentID
                 finalStatus := "success"
                 environment := input.environment
                 environmentURL := input.environmentURL
                 statusUpdates := (if initialOk then 1 else 0) + 1 } ∧
      gitHubDeploymentWorkflow input (some dep) initialOk false
        = some { deploymentID := dep.deploymentID
                 finalStatus := "error"
                 environment := input.environment
                 environmentURL := ""
                 statusUpdates := if initialOk then 1 else 0 }) ∧
    (∀ (input : DeploymentWorkflowInput) (dep : CreateDeploymentResult)
      (initialOk finalOk : Bool), dep.deploymentID ≠ 0 →
      (gitHubDeploymentWorkflowV2 input (some dep) initialOk finalOk).isSome = true) ∧
    (∀ (input : DesignWorkflowInput) (id : Int) (initialOk : Bool) (oks : List Bool),
      isTerminalStatus input.status = false → true ∈ oks →
      gitHubDeploymentWorkflowDesign input (some id) initialOk [] oks
        = .completed ⟨id, "inactive", (initRunState input initialOk).statusUpdates + 1⟩
            ((initRunState input initialOk).applied ++ [timeoutTransition])) ∧
    (("success" : String) ≠ "error" ∧ ("success" : String) ≠ "inactive" ∧
     ("error" : String) ≠ "inactive") := by
  refine ⟨fun input dep initialOk => ⟨rfl, rfl⟩, ?_,
    fun input id initialOk oks hs h => designRun_timeout input id initialOk oks hs h,
    by decide, by decide, by decide⟩
  intro input dep initialOk finalOk hdep
  cases finalOk <;> simp [gitHubDeploymentWorkflowV2, hdep]

/-- Witness for C8: a run with nonzero identifier returns a summary under the
defensive check, and a timed-out design run ends `"inactive"`. -/
theorem run_summary_distinguishes_outcomes_witness :
    (gitHubDeploymentWorkflowV2
        { githubOwner := "acme", githubRepo := "shop", commitSHA := "3be5513"
          environment := "production", description := [], isTransient := false
          harnessPipelineID := "", harnessExecutionID := "", logURL := ""
          environmentURL := "" }
        (some { deploymentID := 7, url := "", environment := "production" })
        true false).isSome = true ∧
    gitHubDeploymentWorkflowDesign (designInputWith "queued") (some 7) false [] [true]
      = .completed ⟨7, "inactive",
          (initRunState (designInputWith "queued") false).statusUpdates + 1⟩
          ((initRunState (designInputWith "queued") false).applied ++ [timeoutTransition]) :=
  ⟨run_summary_distinguishes_outcomes.2.1
      { githubOwner := "acme", githubRepo := "shop", commitSHA := "3be5513"
        environment := "production", description := [], isTransient := false
        harnessPipelineID := "", harnessExecutionID := "", logURL := ""
        environmentURL := "" }
      { deploymentID := 7, url := "", environment := "production" }
      true false (by decide),
   run_summary_distinguishes_outcomes.2.2.1 (designInputWith "queued") 7 false [true]
      (by decide) (List.mem_singleton.mpr rfl)⟩

/-! ## C9 — the installation cache -/

/-- The miss-path resolution never disturbs an existing cache entry: it can
only prepend a binding for the organization it was asked about, which the
cache did not hold. -/
theorem resolveInstallation_cache_mono (f : ClientFactory) (org : String)
    (tOk : Bool) (lr : Option (List Installation)) (org' : String) (id' : Int)
    (hmiss : f.installationCache.lookup org = none)
    (h : f.installationCache.lookup org' = some id') :
    (resolveInstallation f org tOk lr).2.1.installationCache.lookup org' = some id' := by
  have horg : org' ≠ org := by
    intro e
    rw [e, hmiss] at h
    cases h
  have hbeq : (org' == org) = false := beq_eq_false_iff_ne.mpr horg
  cases tOk with
  | false => exact h
  | true =>
    cases lr with
    | none => exact h
    | some installations =>
      simp only [resolveInstallation]
      cases hfind : installations.find? (fun inst => inst.account = org) with
      | none => exact h
      | some inst =>
        by_cases hz : inst.id = 0 <;> simp [hz, List.lookup, hbeq, h]

/-- A cache hit is served unchanged, without listing installations. -/
theorem cacheHit_githubCom (f : ClientFactory) (org : String) (tOk : Bool)
    (lr : Option (List Installation)) (id : Int)
    (h : f.installationCache.lookup org = some id) :
    createGitHubComClientForOrg f org tOk lr = (.ok id, f, false) := by
  simp [createGitHubComClientForOrg, h]

/-- A cache hit on the Enterprise path is served unchanged when the
Enterprise URL is configured. -/
theorem cacheHit_enterprise (f : ClientFactory) (org : String) (tOk : Bool)
    (lr : Option (List Installation)) (id : Int)
    (h : f.installationCache.lookup org = some id)
    (hurl : f.config.enterpriseURL ≠ "") :
    createEnterpriseClientForOrg f org tOk lr = (.ok id, f, false) := by
  simp [createEnterpriseClientForOrg, hurl, h]

/-- The GitHub.com constructor never disturbs an existing cache entry. -/
theorem cacheMono_githubCom (f : ClientFactory) (org : String) (tOk : Bool)
    (lr : Option (List Installation)) (org' : String) (id' : Int)
    (h : f.installationCache.lookup org' = some id') :
    (createGitHubComClientForOrg f org tOk lr).2.1.installationCache.lookup org'
      = some id' := by
  cases hl : f.installationCache.lookup org with
  | none =>
    simp only [createGitHubComClientForOrg, hl]
    exact resolveInstallation_cache_mono f org tOk lr org' id' hl h
  | some i => simp [createGitHubComClientForOrg, hl, h]

/-- The Enterprise constructor never disturbs an existing cache entry. -/
theorem cacheMono_enterprise (f : ClientFactory) (org : String) (tOk : Bool)
    (lr : Option (List Installation)) (org' : String) (id' : Int)
    (h : f.installationCache.lookup org' = some id') :
    (createEnterpriseClientForOrg f org tOk lr).2.1.installationCache.lookup org'
      = some id' := by
  by_cases hurl : f.config.enterpriseURL = ""
  · simp [createEnterpriseClientForOrg, hurl, h]
  · cases hl : f.installationCache.lookup org with
    | none =>
      simp only [createEnterpriseClientForOrg, hurl, if_neg hurl, hl]
      exact resolveInstallation_cache_mono f org tOk lr org' id' hl h
    | some i => simp [createEnterpriseClientForOrg, hurl, hl, h]

/-- Counterexample to claim C9 as stated: a factory without a configured
Enterprise URL whose cache already holds the organization fails fast on
`CreateEnterpriseClientForOrg` instead of using the cached identifier. -/
theorem installation_cache_cex :
    createEnterpriseClientForOrg
        { config := { enterpriseURL := "", appID := 1 }
          installationCache := [("acme", 42)] } "acme" true (some [])
      = (.error .enterpriseURLNotConfigured,
         { config := { enterpriseURL := "", appID := 1 }
           installationCache := [("acme", 42)] }, false) ∧
    (createEnterpriseClientForOrg
        { config := { enterpriseURL := "", appID := 1 }
          installationCache := [("acme", 42)] } "acme" true (some [])).1
      ≠ .ok 42 := by
  refine ⟨rfl, fun h => ?_⟩
  simp [createEnterpriseClientForOrg] at h

/-- Claim C9 as amended (proved): once an organization's installation
identifier is cached, every later `CreateClientForOrg` and
`CreateGitHubComClientForOrg` call — and every `CreateEnterpriseClientForOrg`
call made with an Enterprise URL configured — returns the cached identifier
without listing installations and leaves the factory unchanged (a call
without a configured Enterprise URL instead fails fast, also without listing
or touching the cache); no factory operation ever removes or overwrites an
existing cache entry. -/
theorem installation_cache_invariant :
    (∀ (f : ClientFactory) (org : String) (tOk : Bool)
      (lr : Option (List Installation)) (id : Int),
      f.installationCache.lookup org = some id → f.config.enterpriseURL ≠ "" →
      createEnterpriseClientForOrg f org tOk lr = (.ok id, f, false)) ∧
    (∀ (f : ClientFactory) (org : String) (tOk : Bool)
      (lr : Option (List Installation)) (id : Int),
      f.installationCache.lookup org = some id →
      createGitHubComClientForOrg f org tOk lr = (.ok id, f, false)) ∧
    (∀ (f : ClientFactory) (org : String) (tOk : Bool)
      (lr : Option (List Installation)) (id : Int),
      f.installationCache.lookup org = some id →
      createClientForOrg f org tOk lr = (.ok id, f, false)) ∧
    (∀ (f : ClientFactory) (org : String) (tOk : Bool)
      (lr : Option (List Installation)) (org' : String) (id' : Int),
      f.installationCache.lookup org' = some id' →
      (createClientForOrg f org tOk lr).2.1.installationCache.lookup org' = some id' ∧
      (createEnterpriseClientForOrg f org tOk lr).2.1.installationCache.lookup org'
        = some id' ∧
      (createGitHubComClientForOrg f org tOk lr).2.1.installationCache.lookup org'
        = some id' ∧
      (createClient f).2.1.installationCache.lookup org' = some id') := by
  refine ⟨cacheHit_enterprise, cacheHit_githubCom, ?_, ?_⟩
  · intro f org tOk lr id h
    by_cases hurl : f.config.enterpriseURL = ""
    · simp only [createClientForOrg, hurl, ne_eq, not_true_eq_false, if_false]
      exact cacheHit_githubCom f org tOk lr id h
    · simp only [createClientForOrg, ne_eq, hurl, not_false_eq_true, if_true]
      exact cacheHit_enterprise f org tOk lr id h hurl
  · intro f org tOk lr org' id' h
    refine ⟨?_, cacheMono_enterprise f org tOk lr org' id' h,
      cacheMono_githubCom f org tOk lr org' id' h, h⟩
    by_cases hurl : f.config.enterpriseURL = ""
    · simp only [createClientForOrg, hurl, ne_eq, not_true_eq_false, if_false]
      exact cacheMono_githubCom f org tOk lr org' id' h
    · simp only [createClientForOrg, ne_eq, hurl, not_false_eq_true, if_true]
      exact cacheMono_enterprise f org tOk lr org' id' h

/-- Witness for C9: a cached organization is served from the cache with no
listing and no factory change. -/
theorem installation_cache_invariant_witness :
    createGitHubComClientForOrg
        { config := { enterpriseURL := "", appID := 1 }
          installationCache := [("acme", 42)] } "acme" true (some [])
      = (.ok 42,
         { config := { enterpriseURL := "", appID := 1 }
           installationCache := [("acme", 42)] }, false) :=
  installation_cache_invariant.2.1
    { config := { enterpriseURL := "", appID := 1 }
      installationCache := [("acme", 42)] } "acme" true (some []) 42 (by decide)

end GhDeployWf
